import Mathlib

/-!
Verification of the site-monitoring core (`monitor.py`, `app.py`,
`database.py`) against its natural-language specification.

The Python code is shallowly embedded: network effects (HTTP responses,
TLS handshakes, TCP connects) are abstracted into explicit outcome values
passed to the pure check functions, and the process state (the in-memory
`last_status` map, the scheduler's job set, and the Store's append-only
tables) is threaded explicitly through the handler functions.
-/

namespace SiteMonitor

/-! ## Data model -/

/-- Mirror of the result dict produced by every probe in `monitor.py`:
`status`, `response_time`, `status_code`, `message`. `status` is `Int`
because Python places no type bound on it (the push probe copies the
stored heartbeat's status verbatim). `status_code` is the overloaded
auxiliary integer field (HTTP status code, or days-until-expiry for ssl). -/
structure CheckResult where
  status : Int
  response_time : Nat
  status_code : Int
  message : String
  deriving Repr, DecidableEq

/-- Mirror of the monitor dict fields the embedded code reads, with the
Python `monitor.get(key, default)` defaults baked in by the caller
(`interval` defaults to 60, `expected_status` to 200, `keyword` missing is
modelled as `""`, matching Python truthiness of `monitor.get('keyword')`). -/
structure Monitor where
  id : Nat
  name : String
  type : String
  target : String
  interval : Nat
  timeout : Nat
  expected_status : Int
  keyword : String
  enabled : Bool
  deriving Repr, DecidableEq

/-- Row of the `heartbeats` table written by `add_heartbeat`. -/
structure HeartbeatRow where
  monitor_id : Nat
  status : Int
  message : String
  created_at : String
  deriving Repr, DecidableEq

/-! ## Abstracted network outcomes

Each probe's network interaction is replaced by an outcome value: the
branch of the Python `try`/`except` that the real I/O would have selected,
together with the data (status code, body, certificate days-left, …) the
probe reads from it. -/

/-- Outcome of the `requests` call in `check_http` (lines 58-70 of
`monitor.py`): a response with its status code and measured elapsed
milliseconds, or one of the four caught exception classes. -/
inductive HttpOutcome where
  | resp (code : Int) (rtime : Nat)
  | timeout
  | sslError (e : String)
  | connError
  | exc (e : String)
  deriving Repr, DecidableEq

/-- Outcome of the second `requests.get` in `check_keyword`: the fetched
body text, or any exception (swallowed by the bare `except: pass`). -/
inductive FetchOutcome where
  | body (text : String)
  | fetchExc
  deriving Repr, DecidableEq

/-- Outcome of the TLS handshake and certificate read in `check_ssl_cert`:
the computed `days_left` with elapsed ms, or a caught exception. -/
inductive SslOutcome where
  | cert (days_left : Int) (rtime : Nat)
  | sslErr (e : String)
  | exc (e : String)
  deriving Repr, DecidableEq

/-- Outcome of the `connect_ex` call in `check_port`: its integer return
value with elapsed ms, a socket timeout, or another exception. -/
inductive PortOutcome where
  | connectEx (res : Int) (rtime : Nat)
  | timeout
  | exc (e : String)
  deriving Repr, DecidableEq

/-- Outcome of a database liveness ping in `check_mysql` / `check_redis`:
module missing, successful ping with elapsed ms, or any exception. -/
inductive DbOutcome where
  | noModule
  | ok (rtime : Nat)
  | exc (e : String)
  deriving Repr, DecidableEq

/-! ## Probe Set (`monitor.py`) -/

/-- Embedding of `MonitorChecker.check_http` (monitor.py lines 43-111).
The response branch computes
`status = 1 if response.status_code == expected_status or response.status_code < 400 else 0`;
each caught exception class maps to its fixed message. -/
def check_http (m : Monitor) (o : HttpOutcome) : CheckResult :=
  match o with
  | .resp code rtime =>
      let status : Int := if code = m.expected_status ∨ code < 400 then 1 else 0
      { status := status, response_time := rtime, status_code := code,
        message := if code = m.expected_status ∨ code < 400 then "OK"
                   else "状态码 " ++ toString code }
  | .timeout =>
      { status := 0, response_time := m.timeout * 1000, status_code := 0,
        message := "请求超时" }
  | .sslError e =>
      { status := 0, response_time := 0, status_code := 0,
        message := "SSL证书错误: " ++ e }
  | .connError =>
      { status := 0, response_time := 0, status_code := 0,
        message := "连接失败" }
  | .exc e =>
      { status := 0, response_time := 0, status_code := 0, message := e }

/-- Literal substring containment, the embedding of Python's
`keyword in response.text`. -/
def strContains (hay needle : String) : Bool :=
  (List.range (hay.length + 1)).any
    (fun i => (hay.toList.drop i).take needle.length == needle.toList)

/-- Condition under which `check_keyword` performs its second fetch
(monitor.py line 117): `result['status'] == 1 and monitor.get('keyword')`,
with Python truthiness of the keyword string. -/
def secondFetch (m : Monitor) (o : HttpOutcome) : Bool :=
  ((check_http m o).status == 1) && (m.keyword != "")

/-- Embedding of `MonitorChecker.check_keyword` (monitor.py lines 113-131):
runs `check_http` first; inside the guarded branch the fetched body is
tested for literal substring containment of the keyword, absence overrides
status to 0; an exception during the second fetch is swallowed (`pass`). -/
def check_keyword (m : Monitor) (o : HttpOutcome) (f : FetchOutcome) : CheckResult :=
  let result := check_http m o
  if (result.status = 1 ∧ m.keyword ≠ "") then
    match f with
    | .body text =>
        if strContains text m.keyword then
          { result with message := "包含关键词: " ++ m.keyword }
        else
          { result with status := 0, message := "未找到关键词: " ++ m.keyword }
    | .fetchExc => result
  else result

/-- Embedding of `MonitorChecker.check_port` (monitor.py lines 133-182),
after the host/port parse: `connect_ex` result 0 means open. -/
def check_port (port : Nat) (timeoutSec : Nat) (o : PortOutcome) : CheckResult :=
  match o with
  | .connectEx res rtime =>
      if res = 0 then
        { status := 1, response_time := rtime, status_code := 0,
          message := "端口 " ++ toString port ++ " 开放" }
      else
        { status := 0, response_time := 0, status_code := 0,
          message := "端口 " ++ toString port ++ " 未开放" }
  | .timeout =>
      { status := 0, response_time := timeoutSec * 1000, status_code := 0,
        message := "连接超时" }
  | .exc e =>
      { status := 0, response_time := 0, status_code := 0, message := e }

/-- Embedding of `MonitorChecker.check_ping` (monitor.py lines 184-188):
a TCP connect with the port forced to 80. -/
def check_ping (timeoutSec : Nat) (o : PortOutcome) : CheckResult :=
  check_port 80 timeoutSec o

/-- Embedding of `MonitorChecker.check_ssl_cert` (monitor.py lines
190-260): four `days_left` bands; `status_code` carries `days_left`. -/
def check_ssl_cert (o : SslOutcome) : CheckResult :=
  match o with
  | .cert days_left rtime =>
      if days_left ≤ 0 then
        { status := 0, response_time := rtime, status_code := days_left,
          message := "证书已过期" }
      else if days_left ≤ 7 then
        { status := 0, response_time := rtime, status_code := days_left,
          message := "证书将在 " ++ toString days_left ++ " 天后过期" }
      else if days_left ≤ 30 then
        { status := 1, response_time := rtime, status_code := days_left,
          message := "证书剩余 " ++ toString days_left ++ " 天（即将过期）" }
      else
        { status := 1, response_time := rtime, status_code := days_left,
          message := "证书有效，剩余 " ++ toString days_left ++ " 天" }
  | .sslErr e =>
      { status := 0, response_time := 0, status_code := 0,
        message := "SSL错误: " ++ e }
  | .exc e =>
      { status := 0, response_time := 0, status_code := 0, message := e }

/-- Embedding of `MonitorChecker.check_push` (monitor.py lines 262-295).
`hb` is the result of `get_last_heartbeat(monitor['id'])`; `age` is the
signed number of seconds between `datetime.now()` and the heartbeat's
parsed `created_at` (so `beat_time < now - 2*interval` iff
`age > 2*interval`). The probe is a pure function of the monitor and the
stored heartbeat: it takes no network-outcome argument at all. -/
def check_push (m : Monitor) (hb : Option HeartbeatRow) (age : Int) : CheckResult :=
  match hb with
  | none =>
      { status := 0, response_time := 0, status_code := 0,
        message := "从未收到心跳" }
  | some b =>
      if age > 2 * (m.interval : Int) then
        { status := 0, response_time := 0, status_code := 0,
          message := "心跳超时，上次: " ++ b.created_at }
      else
        { status := b.status, response_time := 0, status_code := 0,
          message := b.message }

/-- Embedding of `MonitorChecker.check_mysql` (monitor.py lines 297-355),
after parsing the connection string. -/
def check_mysql (o : DbOutcome) : CheckResult :=
  match o with
  | .noModule =>
      { status := 0, response_time := 0, status_code := 0,
        message := "缺少 pymysql 模块" }
  | .ok rtime =>
      { status := 1, response_time := rtime, status_code := 0,
        message := "MySQL 连接正常" }
  | .exc e =>
      { status := 0, response_time := 0, status_code := 0,
        message := "MySQL 连接失败: " ++ e }

/-- Embedding of `MonitorChecker.check_redis` (monitor.py lines 357-402),
after parsing the address. -/
def check_redis (o : DbOutcome) : CheckResult :=
  match o with
  | .noModule =>
      { status := 0, response_time := 0, status_code := 0,
        message := "缺少 redis 模块" }
  | .ok rtime =>
      { status := 1, response_time := rtime, status_code := 0,
        message := "Redis 连接正常" }
  | .exc e =>
      { status := 0, response_time := 0, status_code := 0,
        message := "Redis 连接失败: " ++ e }

/-- The closed set of probe implementations named by the `checkers` dict
in `MonitorChecker.check` (monitor.py lines 19-30). -/
inductive Checker where
  | http
  | keyword
  | port
  | ping
  | ssl
  | push
  | mysql
  | redis
  deriving Repr, DecidableEq

/-- Embedding of the `checkers` dict literal (monitor.py lines 19-30):
`http` and `https` map to `check_http`, `port` and `tcp` to `check_port`. -/
def checkers (t : String) : Option Checker :=
  if t = "http" then some .http
  else if t = "https" then some .http
  else if t = "keyword" then some .keyword
  else if t = "port" then some .port
  else if t = "tcp" then some .port
  else if t = "ping" then some .ping
  else if t = "ssl" then some .ssl
  else if t = "push" then some .push
  else if t = "mysql" then some .mysql
  else if t = "redis" then some .redis
  else none

/-- The ten registered check-type strings, in the order of the
`checkers` dict. -/
def registeredTypes : List String :=
  ["http", "https", "keyword", "port", "tcp", "ping", "ssl", "push", "mysql", "redis"]

/-- Embedding of `checkers.get(monitor_type, self.check_http)`
(monitor.py line 32). -/
def selectChecker (t : String) : Checker :=
  (checkers t).getD .http

/-- Embedding of the body of `MonitorChecker.check` (monitor.py lines
32-41): the selected checker is run inside a `try`; `inner` is its
outcome, with `.error e` standing for an exception whose `str` is `e`;
the `except` arm returns the fixed status-0 dict carrying `str(e)`. -/
def check (m : Monitor) (inner : Checker → Monitor → Except String CheckResult) : CheckResult :=
  match inner (selectChecker m.type) m with
  | .ok r => r
  | .error e =>
      { status := 0, response_time := 0, status_code := 0, message := e }

/-! ## Process state (`app.py`, `database.py`)

The in-memory `last_status` dict `{monitor_id: {check_type: status}}` is
modelled as a nested association list with Python-dict lookup/update
semantics; the Store's append-only tables as lists. -/

/-- Row of the `monitor_logs` table written by `add_log` (database.py
lines 215-223). -/
structure LogRow where
  monitor_id : Nat
  check_type : String
  status : Int
  response_time : Nat
  status_code : Int
  message : String
  deriving Repr, DecidableEq

/-- Row of the `events` table written by `add_event` (database.py). -/
structure EventRow where
  monitor_id : Option Nat
  event_type : String
  message : String
  deriving Repr, DecidableEq

/-- Argument record of a `send_notification(monitor, status, message)`
call made by `check_monitor` (app.py line 103). -/
structure NotifRow where
  monitor_id : Nat
  status : Int
  message : String
  deriving Repr, DecidableEq

/-- Lookup in one inner `{check_type: status}` dict. -/
def lookupA (l : List (String × Int)) (t : String) : Option Int :=
  match l with
  | [] => none
  | (k, v) :: rest => if k = t then some v else lookupA rest t

/-- Python-dict update of one inner `{check_type: status}` dict. -/
def setA (l : List (String × Int)) (t : String) (v : Int) : List (String × Int) :=
  match l with
  | [] => [(t, v)]
  | (k, w) :: rest => if k = t then (k, v) :: rest else (k, w) :: setA rest t v

/-- The `last_status` map `{monitor_id: {check_type: status}}`
(app.py line 43). -/
abbrev LastStatus : Type := List (Nat × List (String × Int))

/-- Evaluation of `last_status[monitor_id].get(check_type)` after the
`monitor_id not in last_status` guard: absent outer key reads as `none`. -/
def lookup2 (ls : LastStatus) (mid : Nat) (t : String) : Option Int :=
  match ls with
  | [] => none
  | (k, inner) :: rest => if k = mid then lookupA inner t else lookup2 rest mid t

/-- Evaluation of `last_status[monitor_id][check_type] = v`, with the
lazy creation of the inner dict performed by app.py lines 72-73. -/
def set2 (ls : LastStatus) (mid : Nat) (t : String) (v : Int) : LastStatus :=
  match ls with
  | [] => [(mid, [(t, v)])]
  | (k, inner) :: rest =>
      if k = mid then (k, setA inner t v) :: rest else (k, inner) :: set2 rest mid t v

/-- Whole mutable state touched by the embedded handlers: the scheduler's
job set (one job id per monitor), the in-memory `last_status` map, and the
Store's tables. -/
structure AppState where
  monitors : List Monitor
  jobs : List Nat
  last_status : LastStatus
  logs : List LogRow
  events : List EventRow
  notifications : List NotifRow
  heartbeats : List HeartbeatRow
  deriving Repr

/-- Embedding of the `TYPE_NAMES` dict with its `.get(check_type,
check_type)` fallback (app.py lines 45-53, 94). -/
def typeName (t : String) : String :=
  if t = "http" then "HTTP"
  else if t = "keyword" then "关键词"
  else if t = "ssl" then "SSL证书"
  else if t = "port" then "端口"
  else if t = "push" then "推送"
  else if t = "mysql" then "MySQL"
  else if t = "redis" then "Redis"
  else t

/-- Embedding of one iteration of the `for check_type in types` loop body
of `check_monitor` (app.py lines 76-106): skip `push`; log the result;
fire an event and a notification iff a previous status is recorded for the
`(monitor id, check type)` key and differs from the new one; finally
record the new status under that key. `result` is the value
`checker.check(...)` returned for this check type. -/
def checkOne (m : Monitor) (st : AppState) (check_type : String) (result : CheckResult) : AppState :=
  if check_type = "push" then st
  else
    let st1 := { st with logs := st.logs ++
      [{ monitor_id := m.id, check_type := check_type, status := result.status,
         response_time := result.response_time, status_code := result.status_code,
         message := result.message }] }
    let prev := lookup2 st.last_status m.id check_type
    let cur := result.status
    let tn := typeName check_type
    let st2 : AppState :=
      match prev with
      | none => st1
      | some p =>
          if p ≠ cur then
            let event_type := if cur = 0 then "down" else "up"
            let event_msg :=
              if cur = 0 then m.name ++ " [" ++ tn ++ "] 异常: " ++ result.message
              else m.name ++ " [" ++ tn ++ "] 恢复正常"
            { st1 with
              events := st1.events ++
                [{ monitor_id := some m.id, event_type := event_type, message := event_msg }],
              notifications := st1.notifications ++
                [{ monitor_id := m.id, status := cur,
                   message := "[" ++ tn ++ "] " ++ result.message }] }
          else st1
    { st2 with last_status := set2 st2.last_status m.id check_type cur }

/-- Embedding of `check_monitor` (app.py lines 55-106): return unchanged
when the monitor is disabled, otherwise run the loop body once per check
type. `types` is the parsed `monitor['types']` list and `results t` the
value `checker.check({**monitor, 'type': t})` produced for type `t`. -/
def check_monitor (m : Monitor) (types : List String)
    (results : String → CheckResult) (st : AppState) : AppState :=
  if m.enabled then types.foldl (fun s t => checkOne m s t (results t)) st else st

/-- Embedding of `api_delete_monitor` (app.py lines 440-459) past the
auth and existence guards: remove the scheduler job, delete the Store
row, append the delete event. The function leaves `last_status` untouched,
exactly as the source does. -/
def api_delete_monitor (mid : Nat) (name : String) (st : AppState) : AppState :=
  { st with
    jobs := st.jobs.filter (fun j => ¬ j = mid),
    monitors := st.monitors.filter (fun mm => ¬ mm.id = mid),
    events := st.events ++
      [{ monitor_id := none, event_type := "delete",
         message := "删除监控项目: " ++ name }] }

/-- Loop of `api_check_now` (app.py lines 478-489): for each non-push
check type, run the probe, append a log row, and downgrade the overall
status on any failure. Mirrors the Python `for` as structural recursion. -/
def api_check_now_loop (m : Monitor) (results : String → CheckResult) :
    List String → AppState → Int → AppState × Int
  | [], st, overall => (st, overall)
  | t :: rest, st, overall =>
      if t = "push" then api_check_now_loop m results rest st overall
      else
        let r := results t
        api_check_now_loop m results rest
          { st with logs := st.logs ++
            [{ monitor_id := m.id, check_type := t, status := r.status,
               response_time := r.response_time, status_code := r.status_code,
               message := r.message }] }
          (if r.status = 0 then 0 else overall)

/-- Embedding of `api_check_now` (app.py lines 461-494) past the
existence guard: runs the loop with `overall_status` initialised to 1. -/
def api_check_now (m : Monitor) (types : List String)
    (results : String → CheckResult) (st : AppState) : AppState × Int :=
  api_check_now_loop m results types st 1

/-- Embedding of `add_heartbeat` (database.py lines 331-341): append the
heartbeat row and mirror it into the log as a `push` row. -/
def add_heartbeat (mid : Nat) (status : Int) (message : String)
    (now : String) (st : AppState) : AppState :=
  { st with
    heartbeats := st.heartbeats ++
      [{ monitor_id := mid, status := status, message := message, created_at := now }],
    logs := st.logs ++
      [{ monitor_id := mid, check_type := "push", status := status,
         response_time := 0, status_code := 0, message := message }] }

/-- Embedding of `get_last_heartbeat` (database.py lines 343-354): the
most recent heartbeat row of the monitor (rows are appended in time
order, so the last matching row). -/
def get_last_heartbeat (hbs : List HeartbeatRow) (mid : Nat) : Option HeartbeatRow :=
  (hbs.filter (fun r => r.monitor_id == mid)).getLast?

/-- Embedding of the status/message extraction and storage of
`api_push_heartbeat` (app.py lines 505-540) once the token has resolved to
a monitor: the optional payload status is taken as-is with default 1, the
message defaults to OK, and both are stored unvalidated. -/
def api_push_heartbeat (mid : Nat) (payloadStatus : Option Int)
    (payloadMsg : Option String) (now : String) (st : AppState) : AppState :=
  add_heartbeat mid (payloadStatus.getD 1) (payloadMsg.getD "OK") now st

/-! ## Concrete instances used by witnesses and counterexamples -/

/-- A monitor with all Python defaults (`interval` 60, `timeout` 30,
`expected_status` 200), keyword configured, enabled. -/
def mEx : Monitor :=
  { id := 1, name := "站点A", type := "http", target := "http://example.com",
    interval := 60, timeout := 30, expected_status := 200, keyword := "abc",
    enabled := true }

/-- A push-type monitor used to exercise the heartbeat path. -/
def mPush : Monitor :=
  { id := 2, name := "代理B", type := "push", target := "tok", interval := 60,
    timeout := 30, expected_status := 200, keyword := "", enabled := true }

/-- The empty process state. -/
def stEmpty : AppState :=
  { monitors := [], jobs := [], last_status := [], logs := [], events := [],
    notifications := [], heartbeats := [] }

/-- A stored heartbeat reporting status 1. -/
def hbEx : HeartbeatRow :=
  { monitor_id := 2, status := 1, message := "OK", created_at := "2026-01-01 00:00:00" }

/-- State in which monitor 1 has a recorded last status of 1 for `http`. -/
def stTracked : AppState :=
  { stEmpty with last_status := [(1, [("http", 1)])] }

/-- Probe results reporting a failure with HTTP code 500 for every type. -/
def resultsDown : String → CheckResult :=
  fun _ => { status := 0, response_time := 12, status_code := 500,
             message := "状态码 500" }

/-- State in which monitor 1 is scheduled and has tracker entries for two
check types. -/
def stSched : AppState :=
  { stEmpty with
    jobs := [1]
    monitors := [mEx]
    last_status := [(1, [("http", 1), ("ssl", 0)])] }

/-! ## Helper lemmas -/

/-- Writing a key into an inner dict makes it readable. -/
theorem lookupA_setA_self (l : List (String × Int)) (t : String) (v : Int) :
    lookupA (setA l t v) t = some v := by
  induction l with
  | nil => simp [setA, lookupA]
  | cons kv rest ih =>
      obtain ⟨k, w⟩ := kv
      by_cases h : k = t
      · simp [setA, lookupA, h]
      · simp [setA, lookupA, h, ih]

/-- Writing a key into the nested `last_status` map makes it readable. -/
theorem lookup2_set2_self (ls : LastStatus) (mid : Nat) (t : String) (v : Int) :
    lookup2 (set2 ls mid t v) mid t = some v := by
  induction ls with
  | nil => simp [set2, lookup2, lookupA]
  | cons kv rest ih =>
      obtain ⟨k, inner⟩ := kv
      by_cases h : k = mid
      · simp [set2, lookup2, h, lookupA_setA_self]
      · simp [set2, lookup2, h, ih]

/-- Status of the response branch of `check_http`, by computation. -/
theorem check_http_resp_status (m : Monitor) (code : Int) (rtime : Nat) :
    (check_http m (.resp code rtime)).status =
      if code = m.expected_status ∨ code < 400 then 1 else 0 := rfl

/-- Every branch of `check_http` yields status 0 or 1. -/
theorem check_http_status01 (m : Monitor) (o : HttpOutcome) :
    (check_http m o).status = 0 ∨ (check_http m o).status = 1 := by
  cases o with
  | resp code rtime =>
      rw [check_http_resp_status]
      by_cases h : code = m.expected_status ∨ code < 400
      · rw [if_pos h]; right; rfl
      · rw [if_neg h]; left; rfl
  | timeout => left; rfl
  | sslError e => left; rfl
  | connError => left; rfl
  | exc e => left; rfl

/-! ## Claims -/

/-- C2: for an HTTP/HTTPS probe receiving a response with code `c` and
configured `expected_status` `e`, the result has status 1 iff
`c < 400 ∨ c = e` and status 0 otherwise; in particular a code below 400
is never downgraded. -/
theorem http_status_iff_code_ok (m : Monitor) (code : Int) (rtime : Nat) :
    ((check_http m (.resp code rtime)).status = 1 ↔
      (code < 400 ∨ code = m.expected_status)) ∧
    ((check_http m (.resp code rtime)).status = 0 ↔
      ¬ (code < 400 ∨ code = m.expected_status)) := by
  rw [check_http_resp_status]
  by_cases h : code = m.expected_status ∨ code < 400
  · rw [if_pos h]
    constructor
    · exact ⟨fun _ => Or.symm h, fun _ => rfl⟩
    · exact ⟨fun h0 => absurd h0 (by norm_num), fun hn => absurd (Or.symm h) hn⟩
  · rw [if_neg h]
    constructor
    · constructor
      · intro h1; exact absurd h1 (by norm_num)
      · intro hc; exact absurd (Or.symm hc) h
    · constructor
      · intro _ hc; exact h (Or.symm hc)
      · intro _; rfl

/-- C3: the SSL probe classifies a certificate by its days until expiry
into four bands (expired / expiring soon / expiring warning / valid) with
the stated statuses, and the auxiliary `status_code` field carries
`days_left` itself. -/
theorem ssl_days_left_bands (days : Int) (rtime : Nat) :
    (check_ssl_cert (.cert days rtime)).status_code = days ∧
    (days ≤ 0 → (check_ssl_cert (.cert days rtime)).status = 0 ∧
      (check_ssl_cert (.cert days rtime)).message = "证书已过期") ∧
    (0 < days → days ≤ 7 → (check_ssl_cert (.cert days rtime)).status = 0 ∧
      (check_ssl_cert (.cert days rtime)).message =
        "证书将在 " ++ toString days ++ " 天后过期") ∧
    (7 < days → days ≤ 30 → (check_ssl_cert (.cert days rtime)).status = 1 ∧
      (check_ssl_cert (.cert days rtime)).message =
        "证书剩余 " ++ toString days ++ " 天（即将过期）") ∧
    (30 < days → (check_ssl_cert (.cert days rtime)).status = 1 ∧
      (check_ssl_cert (.cert days rtime)).message =
        "证书有效，剩余 " ++ toString days ++ " 天") := by
  simp only [check_ssl_cert]
  refine ⟨?_, ?_, ?_, ?_, ?_⟩
  · split <;> try rfl
    split <;> try rfl
    split <;> rfl
  · intro h
    rw [if_pos h]
    exact ⟨rfl, rfl⟩
  · intro h1 h2
    rw [if_neg (by omega), if_pos h2]
    exact ⟨rfl, rfl⟩
  · intro h1 h2
    rw [if_neg (by omega), if_neg (by omega), if_pos h2]
    exact ⟨rfl, rfl⟩
  · intro h
    rw [if_neg (by omega), if_neg (by omega), if_neg (by omega)]
    exact ⟨rfl, rfl⟩

/-- Witness for C3 at `days_left = 8`: status 1 with the expiring
warning, and `status_code` carrying 8. -/
theorem ssl_days_left_bands_at_8 :
    (check_ssl_cert (.cert 8 5)).status = 1 ∧
    (check_ssl_cert (.cert 8 5)).status_code = 8 :=
  ⟨((ssl_days_left_bands 8 5).2.2.2.1 (by decide) (by decide)).1,
   (ssl_days_left_bands 8 5).1⟩

/-- C5: the probe entry point `check` is a total function into
`CheckResult`: when the selected checker raises (modelled by `.error e`),
the boundary converts it to a status-0 result carrying the exception
text, and a returned result passes through unchanged. -/
theorem check_converts_exceptions (m : Monitor)
    (inner : Checker → Monitor → Except String CheckResult) :
    (∀ e, inner (selectChecker m.type) m = .error e →
      check m inner =
        { status := 0, response_time := 0, status_code := 0, message := e }) ∧
    (∀ r, inner (selectChecker m.type) m = .ok r → check m inner = r) := by
  constructor <;> intro x h <;> simp [check, h]

/-- Witness for C5: a checker raising an exception with text `boom`
yields the status-0 result carrying `boom`. -/
theorem check_converts_exceptions_at_boom :
    check mEx (fun _ _ => .error "boom") =
      { status := 0, response_time := 0, status_code := 0, message := "boom" } :=
  (check_converts_exceptions mEx (fun _ _ => .error "boom")).1 "boom" rfl

/-- C10: a check-type string outside the ten registered types has no
entry in the `checkers` dict, and the dispatcher's `.get` fallback
silently selects the HTTP probe. -/
theorem unknown_type_uses_http (t : String) (h : t ∉ registeredTypes) :
    checkers t = none ∧ selectChecker t = Checker.http := by
  simp only [registeredTypes, List.mem_cons, List.not_mem_nil, or_false] at h
  push_neg at h
  obtain ⟨h1, h2, h3, h4, h5, h6, h7, h8, h9, h10⟩ := h
  refine ⟨?_, ?_⟩ <;>
    simp [checkers, selectChecker, h1, h2, h3, h4, h5, h6, h7, h8, h9, h10]

/-- Witness for C10 at the unregistered type `gopher`. -/
theorem unknown_type_uses_http_at_gopher :
    checkers "gopher" = none ∧ selectChecker "gopher" = Checker.http :=
  unknown_type_uses_http "gopher" (by decide)

/-- C4: the push probe — a pure function of the monitor and the stored
heartbeat, taking no network outcome — returns status 0 with the
never-received message when no heartbeat exists; status 0 with the stale
message when the heartbeat's age exceeds twice the configured interval;
and otherwise the heartbeat's own status and message verbatim. -/
theorem push_probe_cases (m : Monitor) (b : HeartbeatRow) (age : Int) :
    (check_push m none age =
      { status := 0, response_time := 0, status_code := 0,
        message := "从未收到心跳" }) ∧
    (age > 2 * (m.interval : Int) →
      check_push m (some b) age =
        { status := 0, response_time := 0, status_code := 0,
          message := "心跳超时，上次: " ++ b.created_at }) ∧
    (age ≤ 2 * (m.interval : Int) →
      (check_push m (some b) age).status = b.status ∧
      (check_push m (some b) age).message = b.message) := by
  refine ⟨rfl, ?_, ?_⟩
  · intro h
    simp only [check_push]
    rw [if_pos h]
  · intro h
    simp only [check_push]
    rw [if_neg (by omega)]
    exact ⟨rfl, rfl⟩

/-- Witness for C4: with interval 60 and a heartbeat 5 seconds old, the
probe returns the heartbeat's own status and message. -/
theorem push_probe_cases_fresh_beat :
    (check_push mPush (some hbEx) 5).status = hbEx.status ∧
    (check_push mPush (some hbEx) 5).message = hbEx.message :=
  (push_probe_cases mPush hbEx 5).2.2 (by norm_num [mPush])

/-- C7: with a configured (non-empty) keyword, the keyword check runs the
http probe first; the guarded second fetch is entered iff that probe
returned status 1 (otherwise the http result passes through untouched for
any fetch outcome); and when the fetched body does not contain the
keyword as a literal substring, the status is overridden to 0 with the
keyword-not-found message. -/
theorem keyword_second_fetch_iff (m : Monitor) (o : HttpOutcome) (text : String)
    (hk : m.keyword ≠ "") :
    (secondFetch m o = true ↔ (check_http m o).status = 1) ∧
    ((check_http m o).status ≠ 1 →
      ∀ f, check_keyword m o f = check_http m o) ∧
    ((check_http m o).status = 1 → strContains text m.keyword = false →
      check_keyword m o (.body text) =
        { check_http m o with
          status := 0, message := "未找到关键词: " ++ m.keyword }) ∧
    ((check_http m o).status = 1 → strContains text m.keyword = true →
      check_keyword m o (.body text) =
        { check_http m o with message := "包含关键词: " ++ m.keyword }) := by
  refine ⟨?_, ?_, ?_, ?_⟩
  · simp [secondFetch, hk]
  · intro h f
    simp only [check_keyword]
    rw [if_neg (by simp [h])]
  · intro h1 hno
    simp only [check_keyword]
    rw [if_pos ⟨h1, hk⟩]
    simp [hno]
  · intro h1 hyes
    simp only [check_keyword]
    rw [if_pos ⟨h1, hk⟩]
    simp [hyes]

/-- Witness for C7: keyword `abc`, a 200 response, and a body `zzz` not
containing it: the keyword check overrides the result to status 0 with
the keyword-not-found message. -/
theorem keyword_second_fetch_iff_at_200 :
    check_keyword mEx (.resp 200 0) (.body "zzz") =
      { check_http mEx (.resp 200 0) with
        status := 0, message := "未找到关键词: " ++ mEx.keyword } :=
  (keyword_second_fetch_iff mEx (.resp 200 0) "zzz" (by decide)).2.2.1
    (by decide) (by decide)

/-- Counterexample to C6: a heartbeat posted with payload status 2 is
stored unvalidated by the push endpoint, and the push probe then returns
a CheckResult whose status is 2 — neither 0 nor 1. -/
theorem push_result_status_not_binary :
    (check_push mPush
      (get_last_heartbeat
        (api_push_heartbeat 2 (some 2) (some "weird") "2026-01-01 00:00:10"
          stEmpty).heartbeats 2)
      0).status = 2 ∧ ((2 : Int) = 0 ∨ (2 : Int) = 1 → False) := by
  refine ⟨rfl, by decide⟩

/-- C6 amended: every probe except push yields status exactly 0 or 1,
and the `check` boundary yields 0 on any exception; the push probe copies
the stored heartbeat's status verbatim, so its result is 0 or 1 exactly
when the stored heartbeat status is (which the heartbeat endpoint does
not enforce). -/
theorem probe_status_zero_or_one :
    (∀ m o, (check_http m o).status = 0 ∨ (check_http m o).status = 1) ∧
    (∀ m o f, (check_keyword m o f).status = 0 ∨ (check_keyword m o f).status = 1) ∧
    (∀ p ts o, (check_port p ts o).status = 0 ∨ (check_port p ts o).status = 1) ∧
    (∀ ts o, (check_ping ts o).status = 0 ∨ (check_ping ts o).status = 1) ∧
    (∀ o, (check_ssl_cert o).status = 0 ∨ (check_ssl_cert o).status = 1) ∧
    (∀ o, (check_mysql o).status = 0 ∨ (check_mysql o).status = 1) ∧
    (∀ o, (check_redis o).status = 0 ∨ (check_redis o).status = 1) ∧
    (∀ m inner e, inner (selectChecker m.type) m = .error e →
      (check m inner).status = 0) ∧
    (∀ m age, (check_push m none age).status = 0) ∧
    (∀ (m : Monitor) (b : HeartbeatRow) (age : Int),
      b.status = 0 ∨ b.status = 1 →
      (check_push m (some b) age).status = 0 ∨
        (check_push m (some b) age).status = 1) := by
  have hport : ∀ p ts o, (check_port p ts o).status = 0 ∨ (check_port p ts o).status = 1 := by
    intro p ts o
    cases o with
    | connectEx res rtime =>
        by_cases h : res = 0
        · right; simp [check_port, h]
        · left; simp [check_port, h]
    | timeout => left; rfl
    | exc e => left; rfl
  refine ⟨check_http_status01, ?_, hport, ?_, ?_, ?_, ?_, ?_, ?_, ?_⟩
  · intro m o f
    by_cases hc : ((check_http m o).status = 1 ∧ m.keyword ≠ "")
    · cases f with
      | body text =>
          simp only [check_keyword, if_pos hc]
          by_cases hs : strContains text m.keyword = true
          · rw [if_pos hs]
            exact Or.inr hc.1
          · rw [if_neg hs]
            exact Or.inl rfl
      | fetchExc =>
          simp only [check_keyword, if_pos hc]
          exact check_http_status01 m o
    · simp only [check_keyword, if_neg hc]
      exact check_http_status01 m o
  · intro ts o
    exact hport 80 ts o
  · intro o
    cases o with
    | cert days rtime =>
        simp only [check_ssl_cert]
        split
        · left; rfl
        · split
          · left; rfl
          · split
            · right; rfl
            · right; rfl
    | sslErr e => left; rfl
    | exc e => left; rfl
  · intro o; cases o <;> simp [check_mysql]
  · intro o; cases o <;> simp [check_redis]
  · intro m inner e h
    simp [check, h]
  · intro m age; rfl
  · intro m b age hb
    simp only [check_push]
    by_cases h : age > 2 * (m.interval : Int)
    · rw [if_pos h]; left; rfl
    · rw [if_neg h]; exact hb

/-- Witness for C6 amended: a stored heartbeat with status 1 and age 0
yields a push result whose status is 0 or 1. -/
theorem probe_status_zero_or_one_push_beat :
    (check_push mPush (some hbEx) 0).status = 0 ∨
      (check_push mPush (some hbEx) 0).status = 1 :=
  probe_status_zero_or_one.2.2.2.2.2.2.2.2.2 mPush hbEx 0 (by decide)

/-- C1: on a scheduled tick for a non-push check type, the new status is
always recorded under the `(monitor id, check type)` key; no event or
notification is produced on the first observation for the key; and on a
subsequent observation exactly one event and one notification are
produced iff the new status differs from the recorded one. -/
theorem scheduled_transition_iff (m : Monitor) (t : String)
    (results : String → CheckResult) (st : AppState)
    (he : m.enabled = true) (ht : t ≠ "push") :
    lookup2 (check_monitor m [t] results st).last_status m.id t =
      some (results t).status ∧
    (lookup2 st.last_status m.id t = none →
      (check_monitor m [t] results st).events = st.events ∧
      (check_monitor m [t] results st).notifications = st.notifications) ∧
    (∀ p, lookup2 st.last_status m.id t = some p →
      (p ≠ (results t).status →
        (check_monitor m [t] results st).events.length = st.events.length + 1 ∧
        (check_monitor m [t] results st).notifications.length =
          st.notifications.length + 1) ∧
      (p = (results t).status →
        (check_monitor m [t] results st).events = st.events ∧
        (check_monitor m [t] results st).notifications = st.notifications)) := by
  have hcm : check_monitor m [t] results st = checkOne m st t (results t) := by
    simp [check_monitor, he]
  rw [hcm]
  simp only [checkOne, if_neg ht]
  cases hprev : lookup2 st.last_status m.id t with
  | none =>
      dsimp only
      refine ⟨lookup2_set2_self _ _ _ _, fun _ => ⟨rfl, rfl⟩, ?_⟩
      intro p hp
      exact Option.noConfusion hp
  | some p0 =>
      dsimp only
      by_cases heq : p0 = (results t).status
      · rw [if_neg (not_not_intro heq)]
        refine ⟨lookup2_set2_self _ _ _ _, fun h0 => Option.noConfusion h0, ?_⟩
        intro p hp
        injection hp with hpe
        subst hpe
        exact ⟨fun hne => absurd heq hne, fun _ => ⟨rfl, rfl⟩⟩
      · rw [if_pos heq]
        refine ⟨lookup2_set2_self _ _ _ _, fun h0 => Option.noConfusion h0, ?_⟩
        intro p hp
        injection hp with hpe
        subst hpe
        refine ⟨fun _ => ⟨?_, ?_⟩, fun hc => absurd hc heq⟩ <;>
          simp [List.length_append]

/-- Witness for C1: monitor 1 with recorded status 1 for `http` observes
status 0 — exactly one event and one notification are produced. -/
theorem scheduled_transition_iff_flip :
    (check_monitor mEx ["http"] resultsDown stTracked).events.length =
      stTracked.events.length + 1 ∧
    (check_monitor mEx ["http"] resultsDown stTracked).notifications.length =
      stTracked.notifications.length + 1 :=
  ((scheduled_transition_iff mEx "http" resultsDown stTracked rfl
      (by decide)).2.2 1 (by decide)).1 (by decide)

/-- C8 evidence: deleting monitor 1 removes its scheduler job and its
Store row, but leaves both of its State Tracker entries (`http` and
`ssl`) in the in-memory `last_status` map. -/
theorem delete_unschedules_but_keeps_tracker :
    (api_delete_monitor 1 mEx.name stSched).jobs = [] ∧
    (api_delete_monitor 1 mEx.name stSched).monitors = [] ∧
    lookup2 (api_delete_monitor 1 mEx.name stSched).last_status 1 "http" = some 1 ∧
    lookup2 (api_delete_monitor 1 mEx.name stSched).last_status 1 "ssl" = some 0 := by
  refine ⟨by decide, by simp [api_delete_monitor, stSched, mEx], rfl, rfl⟩

/-- Counterexample to C9: with monitor 1's recorded `http` status 1 and a
manual check observing status 0, `api_check_now` leaves the tracker entry
at 1 and produces no event or notification, while `check_monitor` on the
identical inputs updates the entry to 0 and produces a transition event. -/
theorem manual_check_bypasses_tracker_cex :
    lookup2 (api_check_now mEx ["http"] resultsDown stTracked).1.last_status
      1 "http" = some 1 ∧
    (api_check_now mEx ["http"] resultsDown stTracked).1.events =
      stTracked.events ∧
    (api_check_now mEx ["http"] resultsDown stTracked).1.notifications =
      stTracked.notifications ∧
    lookup2 (check_monitor mEx ["http"] resultsDown stTracked).last_status
      1 "http" = some 0 ∧
    (check_monitor mEx ["http"] resultsDown stTracked).events.length =
      stTracked.events.length + 1 := by
  exact ⟨rfl, rfl, rfl, rfl, rfl⟩

/-- Loop invariant of `api_check_now`: the manual-check loop only appends
log rows (one per non-push type); the `last_status` map, events and
notifications are untouched. -/
theorem api_check_now_loop_preserves (m : Monitor) (results : String → CheckResult) :
    ∀ (types : List String) (st : AppState) (overall : Int),
      (api_check_now_loop m results types st overall).1.last_status = st.last_status ∧
      (api_check_now_loop m results types st overall).1.events = st.events ∧
      (api_check_now_loop m results types st overall).1.notifications =
        st.notifications ∧
      (api_check_now_loop m results types st overall).1.logs =
        st.logs ++ (types.filter (fun x => ¬ x = "push")).map
          (fun x =>
            { monitor_id := m.id, check_type := x, status := (results x).status,
              response_time := (results x).response_time,
              status_code := (results x).status_code,
              message := (results x).message }) := by
  intro types
  induction types with
  | nil => intro st overall; simp [api_check_now_loop]
  | cons t rest ih =>
      intro st overall
      by_cases h : t = "push"
      · simpa [api_check_now_loop, h] using ih st overall
      · simp only [api_check_now_loop, if_neg h]
        refine ⟨(ih _ _).1, (ih _ _).2.1, (ih _ _).2.2.1, ?_⟩
        rw [(ih _ _).2.2.2]
        simp [List.filter_cons, h]

/-- C9 amended: a manual check-now request runs the probe and appends a
log row for each non-push check type under the same `(monitor id, check
type)` key, but it does not touch the State Tracker and produces no
events or notifications — a flip it observes is only detected at the next
scheduled tick. -/
theorem manual_check_logs_but_skips_tracker (m : Monitor) (types : List String)
    (results : String → CheckResult) (st : AppState) :
    (api_check_now m types results st).1.last_status = st.last_status ∧
    (api_check_now m types results st).1.events = st.events ∧
    (api_check_now m types results st).1.notifications = st.notifications ∧
    (api_check_now m types results st).1.logs =
      st.logs ++ (types.filter (fun x => ¬ x = "push")).map
        (fun x =>
          { monitor_id := m.id, check_type := x, status := (results x).status,
            response_time := (results x).response_time,
            status_code := (results x).status_code,
            message := (results x).message }) :=
  api_check_now_loop_preserves m results types st 1

end SiteMonitor
